import Mathlib

/-!
Verification of the Gravity object-runtime core (`Src/OSF/gravity/src/gravity_core.c`)
against its natural-language specification.

Shallow embedding conventions:
* `gravity_int_t` (a 64-bit signed integer in the source) is modelled as `ℤ`; the one
  width-sensitive, well-defined C operation that the claims exercise — the
  `(uint32)` conversion of an ivar key in `object_load`/`object_store` — is modelled
  explicitly as reduction modulo `2^32`.
* `gravity_float_t` (a C double) is modelled as `ℚ`; every float the claims exercise is
  produced by an exact int→double cast, where the model is exact.
* Heap objects are identified by natural-number ids standing for the C pointers; where a
  function inspects an object's payload, the payload is carried alongside the id.
* Native functions that report errors through `RETURN_ERROR` are modelled with `Except`
  or with an explicit `NativeOutcome`; the VM services they consume
  (`gravity_vm_fastlookup`, `gravity_vm_runclosure`, …) are oracle fields of an explicit
  VM record, since the interpreter loop is outside this subsystem.
-/

/-- The sixteen classes tested by `gravity_iscore_class` (the `GravityEnv.P_Cls*`
globals initialised by `gravity_core_init`). -/
inductive CoreClass where
  | object
  | classCls
  | boolCls
  | nullCls
  | intCls
  | floatCls
  | funcCls
  | fiberCls
  | stringCls
  | instanceCls
  | listCls
  | mapCls
  | rangeCls
  | systemCls
  | closureCls
  | upvalueCls
deriving DecidableEq

/-- A class reference (`gravity_class_t *`).  Core classes and their paired meta-classes
are distinguished constructors; user and anonymous classes are identified by id.
Anonymous classes are the ones synthesized by `object_bind`. -/
inductive ClassId where
  | core (c : CoreClass)
  | coreMeta (c : CoreClass)
  | user (n : ℕ)
  | userMeta (n : ℕ)
  | anon (n : ℕ)
  | anonMeta (n : ℕ)
deriving DecidableEq

/-- Modelled from the spec: `gravity_class_get_meta` lives in `gravity_object.c`, which is
not under src/.  Per the spec's data model, every class has a paired meta-class holding
its static members, and the meta-class's own class is `Class`. -/
def metaOf : ClassId → ClassId
  | .core c => .coreMeta c
  | .coreMeta _ => .core .classCls
  | .user n => .userMeta n
  | .userMeta _ => .core .classCls
  | .anon n => .anonMeta n
  | .anonMeta _ => .core .classCls

/-- Which internal C function backs a closure whose function has
`tag == EXEC_TYPE_INTERNAL`.  The four conversion dispatchers are distinguished because
the conversion recursion guard compares the resolved closure's `f->internal` pointer
against them. -/
inductive InternalFn where
  | convObjInt
  | convObjFloat
  | convObjBool
  | convObjString
  | other (n : ℕ)
deriving DecidableEq

/-- A `gravity_function_t`: `internalTag = some fn` models
`tag == EXEC_TYPE_INTERNAL && internal == fn`; `ident` is the `identifier` field. -/
structure GFunction where
  internalTag : Option InternalFn
  ident : Option String
deriving DecidableEq

/-- A `gravity_closure_t *`: `cid` models the pointer (closure identity), `f` the
function it wraps. -/
structure GClosure where
  cid : ℕ
  f : GFunction
deriving DecidableEq

/-- A `GravityValue`.  `Int`, `Float`, `Bool`, `Null`, `Undefined` and object references.
Null and Undefined share the Null class and differ only in the numeric discriminator.
List and Map references carry their id (the pointer) together with the pointed-to
payload; Range is immutable and carried inline. -/
inductive GravityValue where
  | int (n : ℤ)
  | float (q : ℚ)
  | bool (b : Bool)
  | null
  | undefined
  | str (s : String)
  | list (id : ℕ) (elems : List GravityValue)
  | mapv (id : ℕ) (entries : List (GravityValue × GravityValue))
  | range (rfrom rto : ℤ)
  | func (fid : ℕ) (ident : Option String)
  | closure (c : GClosure)
  | fiber (id : ℕ)
  | cls (c : ClassId)
  | inst (id : ℕ) (objclass : ClassId) (xdata : Bool) (isstruct : Bool)

/-- Modelled from the spec: `gravity_value_getclass` lives in `gravity_value.c`, which is
not under src/.  The spec: every value is self-describing; instances belong to their
`objclass`; dispatch on a Class resolves on its paired meta-class. -/
def getClass : GravityValue → ClassId
  | .int _ => .core .intCls
  | .float _ => .core .floatCls
  | .bool _ => .core .boolCls
  | .null => .core .nullCls
  | .undefined => .core .nullCls
  | .str _ => .core .stringCls
  | .list _ _ => .core .listCls
  | .mapv _ _ => .core .mapCls
  | .range _ _ => .core .rangeCls
  | .func _ _ => .core .funcCls
  | .closure _ => .core .closureCls
  | .fiber _ => .core .fiberCls
  | .cls c => metaOf c
  | .inst _ objclass _ _ => objclass

/-- The `number_format_type` enum of gravity_core.c. -/
inductive number_format_type where
  | any
  | int
  | float
deriving DecidableEq

/-- Value of a character as a digit in the given base (used by the libc parsing models). -/
def digitVal (base : ℕ) (c : Char) : Option ℕ :=
  let v : Option ℕ :=
    if '0' ≤ c ∧ c ≤ '9' then some (c.toNat - '0'.toNat)
    else if 'a' ≤ c ∧ c ≤ 'f' then some (c.toNat - 'a'.toNat + 10)
    else if 'A' ≤ c ∧ c ≤ 'F' then some (c.toNat - 'A'.toNat + 10)
    else none
  match v with
  | some d => if d < base then some d else none
  | none => none

/-- Accumulate the longest valid digit prefix in the given base, stopping at the first
non-digit (libc `strtol` family behaviour). -/
def parse_digits (base : ℕ) : List Char → ℤ → ℤ
  | [], acc => acc
  | c :: rest, acc =>
    match digitVal base c with
    | some d => parse_digits base rest (acc * (base : ℤ) + (d : ℤ))
    | none => acc

/-- Modelled from the spec: `number_from_bin` lives in gravity_utils.c, which is not under
src/; it accumulates leading binary digits. -/
def number_from_bin (cs : List Char) : ℤ := parse_digits 2 cs 0

/-- Modelled from the spec: `number_from_oct` lives in gravity_utils.c, which is not under
src/; it accumulates leading octal digits. -/
def number_from_oct (cs : List Char) : ℤ := parse_digits 8 cs 0

/-- Modelled from the spec: `number_from_hex` lives in gravity_utils.c, which is not under
src/; it forwards to `strtoll(s, NULL, 16)`, which skips an optional sign and an optional
`0x`/`0X` prefix and accumulates leading hexadecimal digits. -/
def number_from_hex (cs : List Char) : ℤ :=
  let body : List Char → ℤ := fun l =>
    match l with
    | '0' :: x :: rest =>
      if x = 'x' ∨ x = 'X' then
        match rest with
        | d :: _ => if (digitVal 16 d).isSome then parse_digits 16 rest 0 else 0
        | [] => 0
      else parse_digits 16 l 0
    | _ => parse_digits 16 l 0
  match cs with
  | '-' :: rest => - body rest
  | '+' :: rest => body rest
  | _ => body cs

/-- Model of libc `strtoll(s, NULL, 0)`: skip whitespace, optional sign, then a `0x`/`0X`
prefix selects base 16, a remaining leading `0` selects base 8, anything else base 10;
the longest valid digit prefix is accumulated (0 when there is none).  ERANGE clamping
is not modelled; no claim exercises it. -/
def c_strtoll (s : String) : ℤ :=
  let cs := s.data.dropWhile Char.isWhitespace
  let signed : (List Char → ℤ) → ℤ := fun body =>
    match cs with
    | '-' :: rest => - body rest
    | '+' :: rest => body rest
    | _ => body cs
  signed fun l =>
    match l with
    | '0' :: x :: rest =>
      if x = 'x' ∨ x = 'X' then
        match rest with
        | d :: _ => if (digitVal 16 d).isSome then parse_digits 16 rest 0 else 0
        | [] => 0
      else parse_digits 8 (x :: rest) 0
    | _ => parse_digits 10 l 0

/-- Model of libc `strtod`: optional sign, decimal digits, optional fraction.  Exponent
and hexadecimal float forms are not modelled; no claim exercises this function. -/
def c_strtod (s : String) : ℚ :=
  let cs := s.data.dropWhile Char.isWhitespace
  let body : List Char → ℚ := fun l =>
    let intPart := l.takeWhile fun c => (digitVal 10 c).isSome
    let rest := l.dropWhile fun c => (digitVal 10 c).isSome
    let ip : ℚ := (parse_digits 10 intPart 0 : ℤ)
    match rest with
    | '.' :: fr =>
      let frDigits := fr.takeWhile fun c => (digitVal 10 c).isSome
      ip + ((parse_digits 10 frDigits 0 : ℤ) : ℚ) / ((10 : ℚ) ^ frDigits.length)
    | _ => ip
  match cs with
  | '-' :: rest => - body rest
  | '+' :: rest => body rest
  | _ => body cs

/-- `convert_string2number` (gravity_core.c:110).  Empty string is the target kind's
zero; a sign is stripped, then a `0b`/`0o`/`0x` prefix (only when more than two
characters remain) selects a binary/octal/hexadecimal parse with the sign applied
manually; otherwise a `.` in the original string upgrades `any` to float, and the
original string (sign included) is handed to `strtod`/`strtoll`. -/
def convert_string2number (string : String) (number_format : number_format_type) :
    GravityValue :=
  match string.data with
  | [] =>
    if number_format = number_format_type.float then .float 0 else .int 0
  | c0 :: rest0 =>
    let sign : ℤ := if c0 = '-' then -1 else 1
    let cs := if c0 = '-' ∨ c0 = '+' then rest0 else c0 :: rest0
    let mk : ℤ → GravityValue := fun n =>
      if number_format = number_format_type.float then .float (n : ℚ) else .int n
    let hexbinoct : Option GravityValue :=
      match cs with
      | '0' :: c1 :: c2 :: rest =>
        let cu := c1.toUpper
        if cu = 'B' then some (mk (sign * number_from_bin (c2 :: rest)))
        else if cu = 'O' then some (mk (sign * number_from_oct (c2 :: rest)))
        else if cu = 'X' then some (mk (sign * number_from_hex ('0' :: c1 :: c2 :: rest)))
        else none
      | _ => none
    match hexbinoct with
    | some v => v
    | none =>
      let fmt :=
        if number_format = number_format_type.any ∧ string.contains '.' then
          number_format_type.float
        else number_format
      if fmt = number_format_type.float then .float (c_strtod string)
      else .int (c_strtoll string)

/-- The C cast `(gravity_int_t)f` of a double: truncation toward zero. -/
def ratTrunc (q : ℚ) : ℤ := Int.tdiv q.num (q.den : ℤ)

/-- Selector indices used by the conversion dispatchers
(`GRAVITY_INT_INDEX`, `GRAVITY_FLOAT_INDEX`, `GRAVITY_BOOL_INDEX`,
`GRAVITY_STRING_INDEX`). -/
inductive ConvSel where
  | toIntSel
  | toFloatSel
  | toBoolSel
  | toStringSel
deriving DecidableEq

/-- The VM services consumed by the conversion protocol, as oracles:
`fastlookup` is `gravity_vm_fastlookup` (method resolution on a class),
`current` is `gravity_vm_getclosure` (the closure the VM is currently executing),
`run c v = some r` models `gravity_vm_runclosure(vm, c, v, NULL, 0)` returning true with
`gravity_vm_result(vm) = r` (`none` = the call failed),
`bridgeString id` models `delegate->bridge_string` applied to an instance's `xdata`
(`none` = the delegate hook is absent or returned NULL),
`classIdent`/`fmtFloat`/`fmtPtr` model the class `identifier` field and the libc
`"%g"` / `"%p"` formattings, and `isaborted` is `gravity_vm_isaborted`. -/
structure ConvVM where
  fastlookup : ClassId → ConvSel → Option GClosure
  current : Option GClosure
  run : GClosure → GravityValue → Option GravityValue
  bridgeString : ℕ → Option String
  classIdent : ClassId → Option String
  fmtFloat : ℚ → String
  fmtPtr : ℕ → String
  isaborted : Bool

/-- `convert_value2int` (gravity_core.c:292).  `none` models `VALUE_FROM_ERROR(NULL)`. -/
def convert_value2int (vm : ConvVM) (v : GravityValue) : Option GravityValue :=
  match v with
  | .int n => some (.int n)
  | .float q => some (.int (ratTrunc q))
  | .bool b => some (.int (if b then 1 else 0))
  | .null => some (.int 0)
  | .undefined => some (.int 0)
  | .str s => some (convert_string2number s number_format_type.int)
  | v =>
    match vm.fastlookup (getClass v) ConvSel.toIntSel with
    | none => none
    | some closure =>
      if closure.f.internalTag = some InternalFn.convObjInt ∨ vm.current = some closure then
        none
      else vm.run closure v

/-- `convert_value2float` (gravity_core.c:313).  `none` models `VALUE_FROM_ERROR(NULL)`. -/
def convert_value2float (vm : ConvVM) (v : GravityValue) : Option GravityValue :=
  match v with
  | .float q => some (.float q)
  | .int n => some (.float (n : ℚ))
  | .bool b => some (.float (if b then 1 else 0))
  | .null => some (.float 0)
  | .undefined => some (.float 0)
  | .str s => some (convert_string2number s number_format_type.float)
  | v =>
    match vm.fastlookup (getClass v) ConvSel.toFloatSel with
    | none => none
    | some closure =>
      if closure.f.internalTag = some InternalFn.convObjFloat ∨ vm.current = some closure then
        none
      else vm.run closure v

/-- `convert_value2bool` (gravity_core.c:339).  Note the recursion-guard branch returns
`VALUE_FROM_BOOL(1)` — the value true — not an error. -/
def convert_value2bool (vm : ConvVM) (v : GravityValue) : Option GravityValue :=
  match v with
  | .bool b => some (.bool b)
  | .int n => some (.bool (decide (n ≠ 0)))
  | .float q => some (.bool (decide (q ≠ 0)))
  | .null => some (.bool false)
  | .undefined => some (.bool false)
  | .str s => some (.bool (if s.length = 0 then false else decide (s ≠ "false")))
  | v =>
    match vm.fastlookup (getClass v) ConvSel.toBoolSel with
    | none => some (.bool true)
    | some closure =>
      if closure.f.internalTag = some InternalFn.convObjBool ∨ vm.current = some closure then
        some (.bool true)
      else vm.run closure v

/-- Extract the C string of a conversion result:
`(gravity_string_t*)value2`'s `s` when the conversion succeeded (a success of
`convert_value2string` is always a string), `"N/A"` when it failed (the NULL-pointer
substitution in `convert_list2string`/`convert_map2string`). -/
def strOrNA : Option GravityValue → String
  | some (.str s) => s
  | _ => "N/A"

mutual

/-- `convert_value2string` (gravity_core.c:364).  `none` models
`VALUE_FROM_ERROR(NULL)`.  Int/Bool/Null/Undefined/Float/Class/Function/Closure/
List/Map/Range/Fiber have built-in rules; anything else (an Instance, in this value
model) resolves a String method on its class guarded against recursion, with a
bridged-instance / `instance of` fallback inside the guard. -/
def convert_value2string (vm : ConvVM) : GravityValue → Option GravityValue
  | .str s => some (.str s)
  | .int n => some (.str (toString n))
  | .bool b => some (.str (if b then "true" else "false"))
  | .null => some (.str "null")
  | .undefined => some (.str "undefined")
  | .float q => some (.str (vm.fmtFloat q))
  | .cls c => some (.str ((vm.classIdent c).getD "anonymous class"))
  | .func _ ident => some (.str (ident.getD "anonymous func"))
  | .closure c => some (.str (c.f.ident.getD "anonymous closure"))
  | .list id elems => some (.str ("[" ++ String.intercalate "," (convert_list2string_items vm id elems) ++ "]"))
  | .mapv id entries => some (.str ("[" ++ String.intercalate "," (convert_map2string_items vm id entries) ++ "]"))
  | .range rfrom rto => some (.str (toString rfrom ++ "..." ++ toString rto))
  | .fiber id => some (.str ("Fiber " ++ vm.fmtPtr id))
  | .inst id objclass xdata isstruct =>
    match vm.fastlookup objclass ConvSel.toStringSel with
    | none =>
      if xdata then
        match vm.bridgeString id with
        | some s => some (.str s)
        | none => none
      else
        some (.str ("instance of " ++ (vm.classIdent objclass).getD "anonymous class" ++
          " (" ++ vm.fmtPtr id ++ ")"))
    | some closure =>
      if closure.f.internalTag = some InternalFn.convObjString ∨ vm.current = some closure then
        if xdata then
          match vm.bridgeString id with
          | some s => some (.str s)
          | none => none
        else
          some (.str ("instance of " ++ (vm.classIdent objclass).getD "anonymous class" ++
            " (" ++ vm.fmtPtr id ++ ")"))
      else
        match vm.run closure (.inst id objclass xdata isstruct) with
        | some r =>
          match r with
          | .str s => some (.str s)
          | _ => some (.str "null")
        | none => none

/-- The element strings built by `convert_list2string` (gravity_core.c:249): a
self-reference (same list pointer) or a failed conversion contributes `"N/A"`. -/
def convert_list2string_items (vm : ConvVM) (id : ℕ) : List GravityValue → List String
  | [] => []
  | e :: rest =>
    (match e with
     | .list id2 elems2 =>
       if id2 = id then "N/A" else strOrNA (convert_value2string vm (.list id2 elems2))
     | e => strOrNA (convert_value2string vm e)) :: convert_list2string_items vm id rest

/-- The `key:value` strings built by `convert_map2string` (gravity_core.c:181): a
non-string key is converted (`"N/A"` on failure), a value that is the map itself is
replaced by Null before conversion. -/
def convert_map2string_items (vm : ConvVM) (id : ℕ) :
    List (GravityValue × GravityValue) → List String
  | [] => []
  | (k, val) :: rest =>
    (let ks :=
      match k with
      | .str s => s
      | k => strOrNA (convert_value2string vm k)
     let vs :=
      match val with
      | .str s => s
      | .mapv id2 entries2 =>
        if id2 = id then "null" else strOrNA (convert_value2string vm (.mapv id2 entries2))
      | val => strOrNA (convert_value2string vm val)
     ks ++ ":" ++ vs) :: convert_map2string_items vm id rest

end

/-- Read the `n` union field of a value (`v.n`).  It is meaningful for Int (the
integer), Bool (0/1) and Null/Undefined (the 0/1 discriminator); for other kinds the C
would type-pun the union and the result is unspecified — modelled as 0, and never
exercised by a claim. -/
def GravityValue.getInt : GravityValue → ℤ
  | .int n => n
  | .bool b => if b then 1 else 0
  | .null => 0
  | .undefined => 1
  | _ => 0

/-- `operator_int_sub` (gravity_core.c:2008): convert `v2` to Int
(`INTERNAL_CONVERT_INT` with check, so a failed conversion is
`RETURN_ERROR("Unable to convert object to Int")`), then `v1.n - v2.n`. -/
def operator_int_sub (vm : ConvVM) (v1 v2 : GravityValue) : Except String GravityValue :=
  match convert_value2int vm v2 with
  | none => .error "Unable to convert object to Int"
  | some v2c => .ok (.int (v1.getInt - v2c.getInt))

/-- `operator_null_add` (gravity_core.c:2984): `NULL + v2 = v2`. -/
def operator_null_add (v2 : GravityValue) : Except String GravityValue := .ok v2

/-- `operator_null_sub` (gravity_core.c:2991): rewrite `args[0]` to the integer 0 and
delegate to `operator_int_sub`. -/
def operator_null_sub (vm : ConvVM) (v2 : GravityValue) : Except String GravityValue :=
  operator_int_sub vm (.int 0) v2

/-- `operator_null_div` (gravity_core.c:2998): `NULL / v2 = 0`, unconditionally. -/
def operator_null_div (v2 : GravityValue) : Except String GravityValue := .ok (.int 0)

/-- `operator_null_mul` (gravity_core.c:3005): `NULL * v2 = 0`, unconditionally. -/
def operator_null_mul (v2 : GravityValue) : Except String GravityValue := .ok (.int 0)

/-- `operator_null_rem` (gravity_core.c:3012): `NULL % v2 = 0`, unconditionally. -/
def operator_null_rem (v2 : GravityValue) : Except String GravityValue := .ok (.int 0)

/-- Outcome of a native Gravity function call: `RETURN_VALUE` (sets the result slot and
returns true), `RETURN_NOVALUE` (returns true touching no slot), `RETURN_FIBER`
(returns false to make the interpreter switch fibers), `RETURN_ERROR`. -/
inductive NativeOutcome where
  | value (v : GravityValue)
  | novalue
  | fiberswitch
  | error (msg : String)

/-- `map_iterator` (gravity_core.c:1519): a Map's iterator-init unconditionally returns
`VALUE_FROM_FALSE`, signalling immediate exhaustion; neither the map nor the previous
cursor is even inspected. -/
def map_iterator (args : List GravityValue) : NativeOutcome :=
  .value (.bool false)

/-- The `gravity_fiber_t` fields this subsystem touches.  `caller` holds the id of the
fiber that resumed this one (`NULL` = `none`); times are in nanoseconds (`lasttime`)
and seconds (`elapsedtime`, `timewait`). -/
structure GravityFiber where
  caller : Option ℕ
  trying : Bool
  status : ℕ
  elapsedtime : ℚ
  timewait : ℚ
  lasttime : ℕ
  nframes : ℕ
  error : Bool

/-- `FIBER_RUNNING` status code (3, per the `fiber_status` comment table). -/
def FIBER_RUNNING : ℕ := 3

/-- `FIBER_TRYING` status code (4, per the `fiber_status` comment table). -/
def FIBER_TRYING : ℕ := 4

/-- The fiber-scheduler view of the VM: the fiber store (ids standing for
`gravity_fiber_t *`) and the currently executing fiber
(`gravity_vm_fiber` / `gravity_vm_setfiber`). -/
structure FiberVM where
  fibers : ℕ → GravityFiber
  currentFiber : ℕ

/-- `fiber_run` (gravity_core.c:2855), the common body of `fiber_exec` (`call`) and
`fiber_try` (`try`); `now` is `nanotime()`.  A fiber whose `caller` is already set
fails with `RETURN_ERROR("Fiber has already been called.")` before any field of the
fiber is written; otherwise `elapsedtime` is updated, a pending `timewait` that has not
elapsed makes the call a no-op (`RETURN_NOVALUE`), and otherwise the caller is
recorded, the trying flag and status are set, and control transfers
(`gravity_vm_setfiber` + `RETURN_FIBER`).  The `gravity_vm_setslot(vm, NULL, rindex)`
write targets the caller's register file, not the fiber, and is not modelled. -/
def fiber_run (vm : FiberVM) (fid : ℕ) (is_trying : Bool) (now : ℕ) :
    FiberVM × NativeOutcome :=
  let f := vm.fibers fid
  match f.caller with
  | some _ => (vm, .error "Fiber has already been called.")
  | none =>
    let elapsed : ℚ := ((now : ℚ) - (f.lasttime : ℚ)) / 1000000000
    let f1 : GravityFiber :=
      ⟨f.caller, f.trying, f.status, elapsed, f.timewait, f.lasttime, f.nframes, f.error⟩
    if 0 < f.timewait ∧ elapsed < f.timewait then
      (⟨Function.update vm.fibers fid f1, vm.currentFiber⟩, .novalue)
    else
      let f2 : GravityFiber :=
        ⟨some vm.currentFiber, is_trying, if is_trying then FIBER_TRYING else FIBER_RUNNING,
         elapsed, f.timewait, f.lasttime, f.nframes, f.error⟩
      (⟨Function.update vm.fibers fid f2, fid⟩, .fiberswitch)

/-- `fiber_exec` (gravity_core.c:2879): `call(fiber, args)`. -/
def fiber_exec (vm : FiberVM) (fid : ℕ) (now : ℕ) : FiberVM × NativeOutcome :=
  fiber_run vm fid false now

/-- `fiber_try` (gravity_core.c:2884): `try(fiber, args)`. -/
def fiber_try (vm : FiberVM) (fid : ℕ) (now : ℕ) : FiberVM × NativeOutcome :=
  fiber_run vm fid true now

/-- `fiber_yield` (gravity_core.c:2889): on the currently executing fiber, reset
`timewait`, record `lasttime`; then, if it has a caller, switch control to the caller
and unhook (`caller := NULL`, `trying := false`, `RETURN_FIBER`); with no caller it is
a `RETURN_NOVALUE` no-op (control stays put). -/
def fiber_yield (vm : FiberVM) (now : ℕ) : FiberVM × NativeOutcome :=
  let fid := vm.currentFiber
  let f := vm.fibers fid
  match f.caller with
  | some c =>
    let f2 : GravityFiber :=
      ⟨none, false, f.status, f.elapsedtime, 0, now, f.nframes, f.error⟩
    (⟨Function.update vm.fibers fid f2, c⟩, .fiberswitch)
  | none =>
    let f1 : GravityFiber :=
      ⟨f.caller, f.trying, f.status, f.elapsedtime, 0, now, f.nframes, f.error⟩
    (⟨Function.update vm.fibers fid f1, fid⟩, .novalue)

/-- `fiber_yield_time` (gravity_core.c:2912): like `fiber_yield` but first records the
requested minimum delay in `timewait` when the argument is a Float or Int (any other
argument kind is ignored). -/
def fiber_yield_time (vm : FiberVM) (arg : GravityValue) (now : ℕ) :
    FiberVM × NativeOutcome :=
  let fid := vm.currentFiber
  let f := vm.fibers fid
  let tw : ℚ :=
    match arg with
    | .float q => q
    | .int n => (n : ℚ)
    | _ => f.timewait
  match f.caller with
  | some c =>
    let f2 : GravityFiber :=
      ⟨none, false, f.status, f.elapsedtime, tw, now, f.nframes, f.error⟩
    (⟨Function.update vm.fibers fid f2, c⟩, .fiberswitch)
  | none =>
    let f1 : GravityFiber :=
      ⟨f.caller, f.trying, f.status, f.elapsedtime, tw, now, f.nframes, f.error⟩
    (⟨Function.update vm.fibers fid f1, fid⟩, .novalue)

/-- `gravity_iscore_class` (gravity_core.c:3693): the sixteen `GravityEnv` classes and
their sixteen meta-classes. -/
def gravity_iscore_class : ClassId → Bool
  | .core _ => true
  | .coreMeta _ => true
  | _ => false

/-- `gravity_class_is_anon` (the check used by `object_bind`; the helper itself lives in
gravity_object, identifying the anonymous classes synthesized here). -/
def gravity_class_is_anon : ClassId → Bool
  | .anon _ => true
  | _ => false

/-- The registry state `object_bind` can touch: every class's method hash table
(`htable`), the superclass links, the VM global table (`gravity_vm_setvalue`), the
counter behind `gravity_vm_anonymous`, and the instance-heap `objclass` overrides
written by `object->objclass = anon` (for Class receivers the override is keyed by the
class). -/
structure BindState where
  tables : ClassId → String → Option GravityValue
  superOf : ClassId → Option ClassId
  anonCount : ℕ
  globals : String → Option GravityValue
  clsObjclass : ClassId → Option ClassId

/-- The success path of `object_bind` past the core-class check: if the receiver's
class is not yet anonymous, synthesize an anonymous class pair under `c`
(`gravity_class_new_pair`, modelled from the spec as it lives in gravity_object.c),
reparent the receiver, and publish the class as a VM global; finally
`gravity_class_bind` the closure into the (anonymous) class's hash table.  Returns the
new state and the possibly reparented receiver. -/
def object_bind_attach (st : BindState) (receiver : GravityValue) (c : ClassId)
    (key : String) (clo : GravityValue) : BindState × Except String GravityValue :=
  if gravity_class_is_anon c then
    (⟨fun c2 k => if c2 = c ∧ k = key then some clo else st.tables c2 k,
      st.superOf, st.anonCount, st.globals, st.clsObjclass⟩, .ok receiver)
  else
    let anon := ClassId.anon st.anonCount
    let name := "$anon" ++ toString st.anonCount
    let receiver2 :=
      match receiver with
      | .inst id _ xdata isstruct => GravityValue.inst id anon xdata isstruct
      | r => r
    let override :=
      match receiver with
      | .cls c0 => fun c2 => if c2 = c0 then some anon else st.clsObjclass c2
      | _ => st.clsObjclass
    (⟨fun c2 k => if c2 = anon ∧ k = key then some clo else st.tables c2 k,
      fun c2 => if c2 = anon then some c else st.superOf c2,
      st.anonCount + 1,
      fun n => if n = name then some (.cls anon) else st.globals n,
      override⟩, .ok receiver2)

/-- `object_bind` (gravity_core.c:824).  Sanity checks (argument count, String key,
Closure value, Instance-or-Class receiver), then the core-class refusal
(`"Unable to bind method to a Gravity core class."`), then the attach path.  Error
paths return the state unchanged. -/
def object_bind (st : BindState) (args : List GravityValue) :
    BindState × Except String GravityValue :=
  if args.length < 3 then (st, .error "Incorrect number of arguments.")
  else
    match args.getD 1 .null with
    | .str key =>
      match args.getD 2 .null with
      | .closure clo =>
        let a0 := args.getD 0 .null
        let isTarget : Bool :=
          match a0 with
          | .inst _ _ _ _ => true
          | .cls _ => true
          | _ => false
        if isTarget then
          let c := getClass a0
          if gravity_iscore_class c then
            (st, .error "Unable to bind method to a Gravity core class.")
          else
            object_bind_attach st a0 c key (.closure clo)
        else
          (st, .error "bind method can be applied only to instances or classes.")
      | _ => (st, .error "Second argument must be a Closure.")
    | _ => (st, .error "First argument must be a String.")

/-- The ivar storage the integer-key fast path of `object_load`/`object_store`
addresses: the target class's `nivars` and the slot array (`instance->ivars` for an
instance target, `c->ivars` for a class target whose meta is already initialized). -/
structure IvarTarget where
  nivars : ℕ
  ivars : List GravityValue

/-- The C cast `(uint32)key.n`: unsigned conversion of the 64-bit key, i.e. reduction
modulo `2^32`. -/
def uint32_of_int (n : ℤ) : ℕ := (n % (2 : ℤ) ^ 32).toNat

/-- Integer-key fast path of `object_load` (gravity_core.c:659): truncate the key to
`uint32`, bounds-check against `nivars`, and read the slot. -/
def object_load_ivar (t : IvarTarget) (n : ℤ) : Except String GravityValue :=
  let nindex := uint32_of_int n
  if t.nivars ≤ nindex then .error "Out of bounds ivar index in load operation (1)."
  else .ok (t.ivars.getD nindex .null)

/-- Integer-key fast path of `object_store` (gravity_core.c:746): truncate the key to
`uint32`, bounds-check against `nivars`; in bounds, a struct-flavored instance value is
deep-cloned (`gravity_instance_clone`, outside src/, abstracted as the `clone` oracle)
and the slot is written.  The state is returned unchanged alongside the error. -/
def object_store_ivar (clone : GravityValue → GravityValue) (t : IvarTarget) (n : ℤ)
    (value : GravityValue) : IvarTarget × Except String Unit :=
  let nindex := uint32_of_int n
  if t.nivars ≤ nindex then (t, .error "Out of bounds ivar index in store operation (1).")
  else
    let v :=
      match value with
      | .inst id cls x true => clone (.inst id cls x true)
      | _ => value
    (⟨t.nivars, t.ivars.set nindex v⟩, .ok ())

/-- Read `v.f` of a conversion result (`convert_value2float(vm, val).f` in
`list_default_number_compare`): the rational when the conversion produced a Float; for
a failed or non-Float result the C reads an unspecified union bit pattern — modelled
as 0 and never exercised by a claim. -/
def gfloat_of : Option GravityValue → ℚ
  | some (.float q) => q
  | _ => 0

/-- `list_default_number_compare` (gravity_core.c:1137): `n1 > n2` on the
float-converted operands. -/
def list_default_number_compare (vm : ConvVM) (val1 val2 : GravityValue) : Bool :=
  decide (gfloat_of (convert_value2float vm val2) < gfloat_of (convert_value2float vm val1))

/-- Read the C string of a `convert_value2string` result in
`list_default_string_compare`; a failed conversion would leave the C dereferencing an
error value — modelled as the empty string and never exercised by a claim. -/
def gstr_of : Option GravityValue → String
  | some (.str s) => s
  | _ => ""

/-- `list_default_string_compare` (gravity_core.c:1144): `strcmp(s1, s2) > 0` on the
string-converted operands. -/
def list_default_string_compare (vm : ConvVM) (val1 val2 : GravityValue) : Bool :=
  decide (gstr_of (convert_value2string vm val2) < gstr_of (convert_value2string vm val1))

/-- The `j`-loop of `partition` (gravity_core.c:1164): `steps` counts the iterations
`j = low, …, high-1`; `i` is the split index; when the comparison rejects
(`!callback(array[j], pivot)` — `compare_values` for a predicate closure is abstracted
into the same `cmp`), `++i` and `swap a[i] a[j]`. -/
def partition_loop (cmp : GravityValue → GravityValue → Bool) (pivot : GravityValue) :
    ℕ → Array GravityValue → ℤ → ℤ → Array GravityValue × ℤ
  | 0, a, i, _ => (a, i)
  | steps + 1, a, i, j =>
    if ¬ cmp (a.getD j.toNat .null) pivot then
      let i2 := i + 1
      let tmp := a.getD i2.toNat .null
      let a2 := (a.setD i2.toNat (a.getD j.toNat .null)).setD j.toNat tmp
      partition_loop cmp pivot steps a2 i2 (j + 1)
    else
      partition_loop cmp pivot steps a i (j + 1)

/-- `partition` (gravity_core.c:1164): pivot is `array[high]`; after the loop, swap
`a[i+1]` with `a[high]` and return `i+1`. -/
def partition (a : Array GravityValue) (low high : ℤ)
    (cmp : GravityValue → GravityValue → Bool) : Array GravityValue × ℤ :=
  let pivot := a.getD high.toNat .null
  let r := partition_loop cmp pivot (high - low).toNat a (low - 1) low
  let a1 := r.1
  let i := r.2
  let tmp := a1.getD (i + 1).toNat .null
  let a2 := (a1.setD (i + 1).toNat (a1.getD high.toNat .null)).setD high.toNat tmp
  (a2, i + 1)

/-- `quicksort` (gravity_core.c:1183).  `ab` is `gravity_vm_isaborted(vm)` (constant
here: no abort can be raised by the built-in comparators).  The C recursion terminates
because each recursive segment is strictly shorter; `fuel` bounds the recursion depth
and any `fuel ≥ high - low + 1` is enough. -/
def quicksort (ab : Bool) : ℕ → Array GravityValue → ℤ → ℤ →
    (GravityValue → GravityValue → Bool) → Array GravityValue
  | 0, a, _, _, _ => a
  | fuel + 1, a, low, high, cmp =>
    if ab then a
    else if low < high then
      let r := partition a low high cmp
      let a2 := quicksort ab fuel r.1 low (r.2 - 1) cmp
      quicksort ab fuel a2 (r.2 + 1) high cmp
    else a

/-- The list heap: ids (pointers) to element arrays, plus the allocator cursor for
`gravity_list_new`. -/
structure ListStore where
  lists : ℕ → List GravityValue
  nextId : ℕ

/-- Comparator selection shared by `list_sort`/`list_sorted`: a predicate closure wins
(abstracted as its comparison function, i.e. `compare_values` over
`gravity_vm_runclosure`); otherwise the first element's kind picks the numeric or the
lexicographic built-in. -/
def list_pick_cmp (vm : ConvVM) (elems : List GravityValue)
    (predicate : Option (GravityValue → GravityValue → Bool)) :
    GravityValue → GravityValue → Bool :=
  match predicate with
  | some p => p
  | none =>
    match elems.headD .null with
    | .int _ => list_default_number_compare vm
    | .float _ => list_default_number_compare vm
    | _ => list_default_string_compare vm

/-- `list_sort` (gravity_core.c:1195): quicksort the receiver's own element array in
place (when it has more than one element) and return the receiver itself. -/
def list_sort (vm : ConvVM) (st : ListStore) (selfId : ℕ)
    (predicate : Option (GravityValue → GravityValue → Bool)) :
    ListStore × GravityValue :=
  let elems := st.lists selfId
  let count := elems.length
  if 1 < count then
    let cmp := list_pick_cmp vm elems predicate
    let sortedElems := (quicksort vm.isaborted count elems.toArray 0 ((count : ℤ) - 1) cmp).toList
    (⟨Function.update st.lists selfId sortedElems, st.nextId⟩, .list selfId sortedElems)
  else
    (st, .list selfId elems)

/-- `list_sorted` (gravity_core.c:1218): allocate a fresh list, memcpy the receiver's
elements into it, quicksort the copy, and return the new list; the receiver is not
written. -/
def list_sorted (vm : ConvVM) (st : ListStore) (selfId : ℕ)
    (predicate : Option (GravityValue → GravityValue → Bool)) :
    ListStore × GravityValue :=
  let elems := st.lists selfId
  let count := elems.length
  let newId := st.nextId
  let sortedElems :=
    if 1 < count then
      let cmp := list_pick_cmp vm elems predicate
      (quicksort vm.isaborted count elems.toArray 0 ((count : ℤ) - 1) cmp).toList
    else elems
  (⟨Function.update st.lists newId sortedElems, newId + 1⟩, .list newId sortedElems)

/-- The forward while-loop of `range_loop` (gravity_core.c:1566): `while (i <= n)`,
invoke the closure on `i`, stop early if the invocation fails, `++i`.  The returned
list is the trace of arguments the closure was invoked on, in order; `run i` is the
success of `gravity_vm_runclosure` on argument `i`.  `fuel ≥ n - i + 1` covers the
whole loop. -/
def range_loop_fwd (run : ℤ → Bool) : ℕ → ℤ → ℤ → List ℤ
  | 0, _, _ => []
  | fuel + 1, i, n =>
    if i ≤ n then
      if run i then i :: range_loop_fwd run fuel (i + 1) n else [i]
    else []

/-- The backward while-loop of `range_loop` (gravity_core.c:1575): `while (n >= i)`,
invoke on `n`, `--n`. -/
def range_loop_back (run : ℤ → Bool) : ℕ → ℤ → ℤ → List ℤ
  | 0, _, _ => []
  | fuel + 1, n, i =>
    if i ≤ n then
      if run n then n :: range_loop_back run fuel (n - 1) i else [n]
    else []

/-- `range_loop` (gravity_core.c:1555), as the trace of closure invocations: forward
from `from` to `to` inclusive when `from < to`, otherwise backward from `from` down to
`to` inclusive.  The nanotime measurement around the loop is not modelled. -/
def range_loop_trace (run : ℤ → Bool) (rfrom rto : ℤ) : List ℤ :=
  if rfrom < rto then range_loop_fwd run ((rto - rfrom).toNat + 1) rfrom rto
  else range_loop_back run ((rfrom - rto).toNat + 1) rfrom rto

/-- A baseline VM for concrete evaluations: no class overrides any conversion method,
no closure is executing, no bridge, no identifiers. -/
def cvm0 : ConvVM :=
  ⟨fun _ _ => none, none, fun _ _ => none, fun _ => none, fun _ => none,
   fun _ => "0", fun _ => "0x0", false⟩

/-- A closure backed by the internal `convert_object_bool` dispatcher (what
`gravity_vm_fastlookup` resolves on a class that did not override `Bool`). -/
def boolDispatcher : GClosure := ⟨3, ⟨some InternalFn.convObjBool, none⟩⟩

/-- A closure backed by the internal `convert_object_string` dispatcher. -/
def stringDispatcher : GClosure := ⟨4, ⟨some InternalFn.convObjString, none⟩⟩

/-- A VM in which every class resolves each conversion selector to the corresponding
built-in dispatcher (the default wiring `gravity_core_init` installs on Object), and in
which running any closure would succeed with Null — so any non-error outcome below is
decided by the recursion guard, not by the oracle. -/
def cvmGuard : ConvVM :=
  ⟨fun _ sel =>
    match sel with
    | .toIntSel => some ⟨1, ⟨some InternalFn.convObjInt, none⟩⟩
    | .toFloatSel => some ⟨2, ⟨some InternalFn.convObjFloat, none⟩⟩
    | .toBoolSel => some boolDispatcher
    | .toStringSel => some stringDispatcher,
   none, fun _ _ => some .null, fun _ => none, fun _ => none,
   fun _ => "0", fun _ => "0x0", false⟩

/-- An empty List object with id 0, used as a concrete non-primitive receiver. -/
def listVal : GravityValue := .list 0 []

/-- An empty registry state for `object_bind` evaluations. -/
def bst0 : BindState :=
  ⟨fun _ _ => none, fun _ => none, 0, fun _ => none, fun _ => none⟩

/-- A store holding one list, id 0, with elements `[3, 1, 2]`; next allocation id 1. -/
def st0 : ListStore :=
  ⟨Function.update (fun _ => []) 0 [.int 3, .int 1, .int 2], 1⟩

/-- A quiescent fiber: never resumed, no caller. -/
def fib_base : GravityFiber := ⟨none, false, 0, 0, 0, 0, 1, false⟩

/-- A fiber that is already owned by caller fiber 0. -/
def fib_called : GravityFiber := ⟨some 0, true, FIBER_RUNNING, 0, 0, 0, 1, false⟩

/-- A VM where fiber 1 already has caller 0 and fiber 0 is executing. -/
def fvm_called : FiberVM :=
  ⟨fun i => if i = 1 then fib_called else fib_base, 0⟩

/-- A VM where the currently executing fiber (1) has caller 0, about to yield. -/
def fvm_yielding : FiberVM :=
  ⟨fun i => if i = 1 then fib_called else fib_base, 1⟩

/-- A VM where the currently executing fiber (2) has no caller. -/
def fvm_top : FiberVM :=
  ⟨fun i => if i = 1 then fib_called else fib_base, 2⟩

/-- True exactly for the value kinds with no built-in `Int`/`Float`/`Bool` conversion
rule, i.e. those on which the conversion falls through to class-method dispatch. -/
def reaches_conv_dispatch : GravityValue → Bool
  | .int _ => false
  | .float _ => false
  | .bool _ => false
  | .null => false
  | .undefined => false
  | .str _ => false
  | _ => true

/-- A single-slot ivar target holding the value 7. -/
def ivt1 : IvarTarget := ⟨1, [.int 7]⟩

/-- C1: for every fiber `f`, `call(f, args)` (`fiber_exec`) and `try(f, args)`
(`fiber_try`) with `f.caller` already non-null fail with the fiber-protocol error
`"Fiber has already been called."` and leave the entire fiber store and the current
fiber — in particular every field of `f` — unmodified: the double-resume is reported,
never silently ignored or queued. -/
theorem fiber_run_double_resume_fails (vm : FiberVM) (fid c now : ℕ)
    (h : (vm.fibers fid).caller = some c) :
    fiber_exec vm fid now = (vm, NativeOutcome.error "Fiber has already been called.") ∧
    fiber_try vm fid now = (vm, NativeOutcome.error "Fiber has already been called.") := by
  constructor <;> simp [fiber_exec, fiber_try, fiber_run, h]

/-- C1 witness: fiber 1 of `fvm_called` has caller 0, and both `call` and `try` on it
error without touching the VM. -/
theorem fiber_run_double_resume_fails_witness :
    (fvm_called.fibers 1).caller = some 0 ∧
    fiber_exec fvm_called 1 50 = (fvm_called, NativeOutcome.error "Fiber has already been called.") ∧
    fiber_try fvm_called 1 50 = (fvm_called, NativeOutcome.error "Fiber has already been called.") := by
  have h : (fvm_called.fibers 1).caller = some 0 := rfl
  exact ⟨h, (fiber_run_double_resume_fails fvm_called 1 0 50 h).1,
            (fiber_run_double_resume_fails fvm_called 1 0 50 h).2⟩

/-- C2: for the currently executing fiber, `yield()` and `yieldWaitTime(d)` leave
control with that fiber when its caller is null (and leave `caller`/`trying`
untouched); when the caller is non-null they clear `caller` and `trying` and transfer
control to the former caller — hence a fiber that has just yielded has a null caller
reference. -/
theorem fiber_yield_noop_and_unhook (vm : FiberVM) (arg : GravityValue) (now : ℕ) :
    ((vm.fibers vm.currentFiber).caller = none →
      (fiber_yield vm now).1.currentFiber = vm.currentFiber ∧
      (fiber_yield vm now).2 = NativeOutcome.novalue ∧
      ((fiber_yield vm now).1.fibers vm.currentFiber).caller = none ∧
      ((fiber_yield vm now).1.fibers vm.currentFiber).trying = (vm.fibers vm.currentFiber).trying ∧
      (fiber_yield_time vm arg now).1.currentFiber = vm.currentFiber ∧
      (fiber_yield_time vm arg now).2 = NativeOutcome.novalue ∧
      ((fiber_yield_time vm arg now).1.fibers vm.currentFiber).caller = none ∧
      ((fiber_yield_time vm arg now).1.fibers vm.currentFiber).trying = (vm.fibers vm.currentFiber).trying) ∧
    (∀ c, (vm.fibers vm.currentFiber).caller = some c →
      (fiber_yield vm now).1.currentFiber = c ∧
      (fiber_yield vm now).2 = NativeOutcome.fiberswitch ∧
      ((fiber_yield vm now).1.fibers vm.currentFiber).caller = none ∧
      ((fiber_yield vm now).1.fibers vm.currentFiber).trying = false ∧
      (fiber_yield_time vm arg now).1.currentFiber = c ∧
      (fiber_yield_time vm arg now).2 = NativeOutcome.fiberswitch ∧
      ((fiber_yield_time vm arg now).1.fibers vm.currentFiber).caller = none ∧
      ((fiber_yield_time vm arg now).1.fibers vm.currentFiber).trying = false) := by
  constructor
  · intro h
    simp [fiber_yield, fiber_yield_time, h, Function.update]
  · intro c h
    simp [fiber_yield, fiber_yield_time, h, Function.update]

/-- C2 witness: yielding from fiber 1 (caller 0) hands control to fiber 0 and clears
`caller`/`trying`; yielding from fiber 2 (no caller) keeps control and produces no
value. -/
theorem fiber_yield_noop_and_unhook_witness :
    ((fvm_yielding.fibers 1).caller = some 0 ∧
      (fiber_yield fvm_yielding 9).1.currentFiber = 0 ∧
      ((fiber_yield fvm_yielding 9).1.fibers 1).caller = none ∧
      ((fiber_yield fvm_yielding 9).1.fibers 1).trying = false) ∧
    ((fvm_top.fibers 2).caller = none ∧
      (fiber_yield fvm_top 9).1.currentFiber = 2 ∧
      (fiber_yield fvm_top 9).2 = NativeOutcome.novalue) := by
  have h1 : (fvm_yielding.fibers 1).caller = some 0 := rfl
  have h2 : (fvm_top.fibers 2).caller = none := rfl
  have k1 := (fiber_yield_noop_and_unhook fvm_yielding .null 9).2 0 h1
  have k2 := (fiber_yield_noop_and_unhook fvm_top .null 9).1 h2
  exact ⟨⟨h1, k1.1, k1.2.2.1, k1.2.2.2.1⟩, ⟨h2, k2.1, k2.2.1⟩⟩

/-- C3 counterexample: the claim says all four conversions fail under the recursion
guard, but `toBool` does not — on a List value whose class resolves `Bool` to the
built-in dispatcher itself (so the guard condition holds), `convert_value2bool`
returns the value `true` instead of signalling a conversion error. -/
theorem convert_bool_guard_counterexample :
    reaches_conv_dispatch listVal = true ∧
    cvmGuard.fastlookup (getClass listVal) ConvSel.toBoolSel = some boolDispatcher ∧
    boolDispatcher.f.internalTag = some InternalFn.convObjBool ∧
    convert_value2bool cvmGuard listVal = some (.bool true) :=
  ⟨rfl, rfl, rfl, rfl⟩

/-- C3 (amended): for every value with no built-in conversion rule, when the method the
class resolves for the conversion is the built-in dispatcher itself or the currently
executing closure is that exact method, `toInt` and `toFloat` fail (error, no loop);
`toBool` instead returns the value true; and `toString` (whose dispatch path is reached
only by instances) falls back to the bridge string for a bridged instance (failing when
the bridge yields nothing) and to an `instance of` description otherwise. -/
theorem conversion_guard_fail_modes (vm : ConvVM) (v : GravityValue) (closure : GClosure) :
    (reaches_conv_dispatch v = true →
      vm.fastlookup (getClass v) ConvSel.toIntSel = some closure →
      (closure.f.internalTag = some InternalFn.convObjInt ∨ vm.current = some closure) →
      convert_value2int vm v = none) ∧
    (reaches_conv_dispatch v = true →
      vm.fastlookup (getClass v) ConvSel.toFloatSel = some closure →
      (closure.f.internalTag = some InternalFn.convObjFloat ∨ vm.current = some closure) →
      convert_value2float vm v = none) ∧
    (reaches_conv_dispatch v = true →
      vm.fastlookup (getClass v) ConvSel.toBoolSel = some closure →
      (closure.f.internalTag = some InternalFn.convObjBool ∨ vm.current = some closure) →
      convert_value2bool vm v = some (.bool true)) ∧
    (∀ fid ocl xd sd, v = .inst fid ocl xd sd →
      vm.fastlookup ocl ConvSel.toStringSel = some closure →
      (closure.f.internalTag = some InternalFn.convObjString ∨ vm.current = some closure) →
      convert_value2string vm v =
        (if xd then (vm.bridgeString fid).map GravityValue.str
         else some (.str ("instance of " ++ (vm.classIdent ocl).getD "anonymous class" ++
           " (" ++ vm.fmtPtr fid ++ ")")))) := by
  refine ⟨?_, ?_, ?_, ?_⟩
  · intro hv hl hg
    cases v <;> first
      | (simp only [convert_value2int, hl]; exact if_pos hg)
      | simp [reaches_conv_dispatch] at hv
  · intro hv hl hg
    cases v <;> first
      | (simp only [convert_value2float, hl]; exact if_pos hg)
      | simp [reaches_conv_dispatch] at hv
  · intro hv hl hg
    cases v <;> first
      | (simp only [convert_value2bool, hl]; exact if_pos hg)
      | simp [reaches_conv_dispatch] at hv
  · intro fid ocl xd sd hv hl hg
    subst hv
    simp only [convert_value2string, hl]
    rw [if_pos hg]
    cases xd
    · simp
    · cases hb : vm.bridgeString fid <;> simp [hb]

/-- C3 (amended) witness: under the dispatcher-resolving VM, `toInt` and `toFloat` on a
List fail, `toBool` yields true, and `toString` on a plain instance yields the
`instance of` description. -/
theorem conversion_guard_fail_modes_witness :
    convert_value2int cvmGuard listVal = none ∧
    convert_value2float cvmGuard listVal = none ∧
    convert_value2bool cvmGuard listVal = some (.bool true) ∧
    convert_value2string cvmGuard (.inst 5 (ClassId.user 0) false false) =
      some (.str "instance of anonymous class (0x0)") := by
  refine ⟨(conversion_guard_fail_modes cvmGuard listVal ⟨1, ⟨some InternalFn.convObjInt, none⟩⟩).1 rfl rfl (Or.inl rfl),
          (conversion_guard_fail_modes cvmGuard listVal ⟨2, ⟨some InternalFn.convObjFloat, none⟩⟩).2.1 rfl rfl (Or.inl rfl),
          (conversion_guard_fail_modes cvmGuard listVal boolDispatcher).2.2.1 rfl rfl (Or.inl rfl),
          ?_⟩
  have k := (conversion_guard_fail_modes cvmGuard (.inst 5 (ClassId.user 0) false false)
    stringDispatcher).2.2.2 5 (ClassId.user 0) false false rfl rfl (Or.inl rfl)
  simpa using k

/-- C4: `bind(name, closure)` on any receiver whose class is a Gravity core class (or a
core meta-class) fails with a bind error — either the instance-or-class target check or
the `gravity_iscore_class` refusal — and returns the registry state unchanged, so no
class's method table is modified. -/
theorem object_bind_core_class_error (st : BindState) (v : GravityValue) (key : String)
    (clo : GClosure) (h : gravity_iscore_class (getClass v) = true) :
    (object_bind st [v, .str key, .closure clo]).1 = st ∧
    ∃ msg, (object_bind st [v, .str key, .closure clo]).2 = Except.error msg := by
  cases v <;> simp [object_bind, getClass, h] at h ⊢

/-- C4 witness: binding onto the Int value 42 (class Int) and onto the class Int itself
(class meta-Int) both error and leave the registry untouched. -/
theorem object_bind_core_class_error_witness :
    gravity_iscore_class (getClass (GravityValue.int 42)) = true ∧
    gravity_iscore_class (getClass (GravityValue.cls (.core .intCls))) = true ∧
    (object_bind bst0 [GravityValue.int 42, .str "m", .closure ⟨9, ⟨none, none⟩⟩]).1 = bst0 ∧
    (∃ msg, (object_bind bst0 [GravityValue.int 42, .str "m", .closure ⟨9, ⟨none, none⟩⟩]).2 = Except.error msg) ∧
    (object_bind bst0 [GravityValue.cls (.core .intCls), .str "m", .closure ⟨9, ⟨none, none⟩⟩]).1 = bst0 ∧
    (∃ msg, (object_bind bst0 [GravityValue.cls (.core .intCls), .str "m", .closure ⟨9, ⟨none, none⟩⟩]).2 = Except.error msg) := by
  have k1 := object_bind_core_class_error bst0 (GravityValue.int 42) "m" ⟨9, ⟨none, none⟩⟩ rfl
  have k2 := object_bind_core_class_error bst0 (GravityValue.cls (.core .intCls)) "m" ⟨9, ⟨none, none⟩⟩ rfl
  exact ⟨rfl, rfl, k1.1, k1.2, k2.1, k2.2⟩

/-- C5: for every Map and every previous-cursor value (the Null start cursor included),
the iterator-init operation returns false — a Map always signals immediately exhausted
and is never traversed through the generic iteration protocol. -/
theorem map_iterator_always_exhausted (id : ℕ)
    (entries : List (GravityValue × GravityValue)) (cursor : GravityValue) :
    map_iterator [.mapv id entries, cursor] = .value (.bool false) := rfl

/-- C6: on the list `[3,1,2]` (id 0 in `st0`), `sorted()` returns a fresh list (id 1)
holding `[1,2,3]` while the receiver still holds `[3,1,2]`, and `sort()` reorders the
receiver in place to `[1,2,3]` and returns the receiver's own reference (id 0). -/
theorem list_sort_sorted_scenario :
    st0.lists 0 = [GravityValue.int 3, .int 1, .int 2] ∧
    (list_sorted cvm0 st0 0 none).2 = GravityValue.list 1 [.int 1, .int 2, .int 3] ∧
    (list_sorted cvm0 st0 0 none).1.lists 0 = [GravityValue.int 3, .int 1, .int 2] ∧
    (list_sorted cvm0 st0 0 none).1.lists 1 = [GravityValue.int 1, .int 2, .int 3] ∧
    (list_sort cvm0 st0 0 none).2 = GravityValue.list 0 [.int 1, .int 2, .int 3] ∧
    (list_sort cvm0 st0 0 none).1.lists 0 = [GravityValue.int 1, .int 2, .int 3] :=
  ⟨rfl, rfl, rfl, rfl, rfl, rfl⟩

/-- C7: `range(1,5).loop(closure)` invokes the closure exactly 5 times, passing the
single argument 1, 2, 3, 4, 5 on the successive invocations, in that order (the
invocation trace is exactly `[1,2,3,4,5]`), for any closure whose invocations all
succeed. -/
theorem range_loop_one_to_five (run : ℤ → Bool) (h : ∀ k, run k = true) :
    range_loop_trace run 1 5 = [1, 2, 3, 4, 5] := by
  simp [range_loop_trace, range_loop_fwd, h]

/-- C7 witness: with an always-succeeding closure the trace is `[1,2,3,4,5]`. -/
theorem range_loop_one_to_five_witness :
    range_loop_trace (fun _ => true) 1 5 = [1, 2, 3, 4, 5] :=
  range_loop_one_to_five (fun _ => true) (fun _ => rfl)

/-- C8: conversion round-trips on primitives — `toString(toInt("42"))` yields the
string `"42"` and `toInt(toFloat(7))` yields the integer 7, for any VM state (the
primitive rules never consult the VM). -/
theorem conversion_round_trips (vm : ConvVM) :
    (convert_value2int vm (.str "42")).bind (convert_value2string vm) = some (.str "42") ∧
    (convert_value2float vm (.int 7)).bind (convert_value2int vm) = some (.int 7) :=
  ⟨rfl, rfl⟩

/-- C9 counterexample: the key `n = 2^32` lies outside `[0, nivars)` for the one-slot
target `ivt1`, yet `load` succeeds reading slot 0 and `store` succeeds writing slot 0 —
the `(uint32)` truncation wraps the key before the bounds check, so the claim's
"every n outside the bound errors and touches no slot" is false. -/
theorem ivar_index_wraps_counterexample :
    ¬ ((0 : ℤ) ≤ 2 ^ 32 ∧ (2 : ℤ) ^ 32 < (ivt1.nivars : ℤ)) ∧
    object_load_ivar ivt1 ((2 : ℤ) ^ 32) = .ok (.int 7) ∧
    (object_store_ivar id ivt1 ((2 : ℤ) ^ 32) (.int 9)).2 = .ok () ∧
    (object_store_ivar id ivt1 ((2 : ℤ) ^ 32) (.int 9)).1.ivars = [GravityValue.int 9] := by
  refine ⟨by norm_num [ivt1], rfl, rfl, rfl⟩

/-- C9 (amended): integer-key ivar access uses the key reduced modulo `2^32` (the C
`(uint32)` cast) as slot index: in bounds, `load` reads and `store` writes exactly that
slot (struct values cloned on store); out of bounds both error and the slot array is
untouched; and for `0 ≤ n < nivars` (with `nivars ≤ 2^32`, as a C `uint32` guarantees)
the reduced index is `n` itself, so the claim as stated holds on that range. -/
theorem ivar_access_mod32_bounds (clone : GravityValue → GravityValue)
    (t : IvarTarget) (n : ℤ) (v : GravityValue) :
    (uint32_of_int n < t.nivars →
      object_load_ivar t n = .ok (t.ivars.getD (uint32_of_int n) .null) ∧
      (object_store_ivar clone t n v).2 = .ok () ∧
      (object_store_ivar clone t n v).1.nivars = t.nivars ∧
      (object_store_ivar clone t n v).1.ivars =
        t.ivars.set (uint32_of_int n)
          (match v with
           | .inst id cls x true => clone (.inst id cls x true)
           | _ => v)) ∧
    (t.nivars ≤ uint32_of_int n →
      object_load_ivar t n = .error "Out of bounds ivar index in load operation (1)." ∧
      (object_store_ivar clone t n v).1 = t ∧
      (object_store_ivar clone t n v).2 = .error "Out of bounds ivar index in store operation (1).") ∧
    (0 ≤ n → n < (t.nivars : ℤ) → t.nivars ≤ 2 ^ 32 → uint32_of_int n = n.toNat) := by
  refine ⟨?_, ?_, ?_⟩
  · intro h
    have h2 : ¬ (t.nivars ≤ uint32_of_int n) := Nat.not_le.mpr h
    simp [object_load_ivar, object_store_ivar, h2]
  · intro h
    simp [object_load_ivar, object_store_ivar, h]
  · intro h0 h1 h2
    simp only [uint32_of_int]
    omega

/-- C9 (amended) witness: on the one-slot target, key 0 loads slot 0, key 1 errors, and
the reduced index of 0 is 0. -/
theorem ivar_access_mod32_bounds_witness :
    uint32_of_int 0 < ivt1.nivars ∧
    object_load_ivar ivt1 0 = .ok (.int 7) ∧
    ivt1.nivars ≤ uint32_of_int 1 ∧
    object_load_ivar ivt1 1 = .error "Out of bounds ivar index in load operation (1)." ∧
    uint32_of_int 0 = (0 : ℤ).toNat := by
  have hin : uint32_of_int 0 < ivt1.nivars := by decide
  have hout : ivt1.nivars ≤ uint32_of_int 1 := by decide
  exact ⟨hin, ((ivar_access_mod32_bounds id ivt1 0 .null).1 hin).1, hout,
         ((ivar_access_mod32_bounds id ivt1 1 .null).2.1 hout).1,
         (ivar_access_mod32_bounds id ivt1 0 .null).2.2 (by decide) (by decide) (by decide)⟩

/-- C10: Null arithmetic treats Null as zero and never raises division-by-zero: for
every `v2`, `Null + v2 = v2`, `Null * v2 = 0`, `Null / v2 = 0` and `Null % v2 = 0`
(the integer 0 even when `v2` is the integer 0 — no zero check is ever reached), and
`Null - v2` is the integer subtraction `0 - m` where `m` is `v2` read as an integer by
the same conversion `operator_int_sub` applies to it. -/
theorem null_arithmetic_as_zero (vm : ConvVM) (v2 : GravityValue) (m : ℤ) :
    operator_null_add v2 = .ok v2 ∧
    operator_null_mul v2 = .ok (.int 0) ∧
    operator_null_div v2 = .ok (.int 0) ∧
    operator_null_rem v2 = .ok (.int 0) ∧
    operator_null_div (.int 0) = .ok (.int 0) ∧
    operator_null_rem (.int 0) = .ok (.int 0) ∧
    (convert_value2int vm v2 = some (.int m) →
      operator_null_sub vm v2 = .ok (.int (0 - m))) := by
  refine ⟨rfl, rfl, rfl, rfl, rfl, rfl, ?_⟩
  intro h
  simp [operator_null_sub, operator_int_sub, h, GravityValue.getInt]

/-- C10 witness: `Null + 0 = 0`, `Null / 0 = 0` (no error), and `Null - true = -1`
through the integer reading of `true`. -/
theorem null_arithmetic_as_zero_witness :
    operator_null_add (.int 0) = .ok (.int 0) ∧
    operator_null_div (.int 0) = .ok (.int 0) ∧
    convert_value2int cvm0 (.bool true) = some (.int 1) ∧
    operator_null_sub cvm0 (.bool true) = .ok (.int (0 - 1)) := by
  have h : convert_value2int cvm0 (.bool true) = some (.int 1) := rfl
  exact ⟨(null_arithmetic_as_zero cvm0 (.int 0) 0).1,
         (null_arithmetic_as_zero cvm0 (.int 0) 0).2.2.2.2.1, h,
         (null_arithmetic_as_zero cvm0 (.bool true) 1).2.2.2.2.2.2 h⟩
